import Mathlib

/-!
Verification of the exrs OpenEXR codec core: a shallow embedding of the
attribute codec (src/file/attributes.rs) and the image data model
(src/image/mod.rs, src/image/simple.rs), with theorems about
serialization round-trips, index arithmetic and error behaviour.

Bytes are modelled as natural numbers below 256, byte streams as lists.
Rust i32 values are modelled as Int, u32 values as Nat (with explicit
bounds where overflow matters), f32/f64 values as their raw bit
patterns (Nat), since the codec only moves their bytes and never
computes with them. Fallible reads return Except, panics are explicit
outcomes. Release-build semantics are used: debug_assert does nothing.
-/

namespace Exrs

/-- ASCII byte list of a string literal, used for the on-wire kind names. -/
def strBytes (s : String) : List Nat := s.data.map Char.toNat

/-- Errors produced while reading, mirroring the crate's ReadError /
Invalid taxonomy as far as the embedded functions need it. -/
inductive ReadErr where
  /-- Underlying stream ended or failed. -/
  | ioEof
  /-- A value out of range or of the wrong kind. -/
  | invalidContent (what : String)
  /-- An attribute size field was implausibly large. -/
  | invalidSize
  /-- Unrecognized attribute kind; the payload can be skipped. -/
  | unknownAttributeType (bytesToSkip : Nat)
deriving DecidableEq

/-- Modelled from the spec: little-endian read of one byte
(src/file/io.rs is not part of the sources). -/
def readU8 : List Nat → Except ReadErr (Nat × List Nat)
  | [] => Except.error ReadErr.ioEof
  | b :: rest => Except.ok (b, rest)

/-- Modelled from the spec: little-endian serialization of a u32 into four bytes. -/
def u32ToBytes (n : Nat) : List Nat :=
  [n % 256, n / 256 % 256, n / 65536 % 256, n / 16777216 % 256]

/-- Modelled from the spec: little-endian read of a u32 from four bytes. -/
def readU32 (bs : List Nat) : Except ReadErr (Nat × List Nat) := do
  let (b0, bs) ← readU8 bs
  let (b1, bs) ← readU8 bs
  let (b2, bs) ← readU8 bs
  let (b3, bs) ← readU8 bs
  Except.ok (b0 + 256 * b1 + 65536 * b2 + 16777216 * b3, bs)

/-- Modelled from the spec: little-endian serialization of an i32
(two's complement bit pattern, then the u32 byte layout). -/
def i32ToBytes (i : Int) : List Nat := u32ToBytes ((i % (2 ^ 32)).toNat)

/-- Modelled from the spec: little-endian read of an i32. -/
def readI32 (bs : List Nat) : Except ReadErr (Int × List Nat) := do
  let (n, bs) ← readU32 bs
  Except.ok (if n < 2 ^ 31 then (n : Int) else (n : Int) - 2 ^ 32, bs)

/-- Modelled from the spec: read a fixed number of raw bytes, failing at end of input. -/
def readBytes (n : Nat) (bs : List Nat) : Except ReadErr (List Nat × List Nat) :=
  if n ≤ bs.length then Except.ok (bs.take n, bs.drop n) else Except.error ReadErr.ioEof

/-- Modelled from the spec: the bounded vector read takes a caller-supplied
size cap and rejects absurd sizes with InvalidSize before reading. -/
def readU8Vec (bs : List Nat) (size softMax : Nat) : Except ReadErr (List Nat × List Nat) :=
  if size ≤ softMax then readBytes size bs else Except.error ReadErr.invalidSize

/-- From src/file/attributes.rs: whether to round a division up or down. -/
inductive RoundingMode where
  | Down
  | Up
deriving DecidableEq

/-- RoundingMode::divide from src/file/attributes.rs: integer division of
u32 values, rounding up exactly when the truncated quotient times the
divisor falls short of the dividend. Rust panics on division by zero,
modelled as none. -/
def RoundingMode.divide (mode : RoundingMode) (dividend divisor : Nat) : Option Nat :=
  if divisor = 0 then none else
  let result := dividend / divisor
  match mode with
  | RoundingMode.Up => if result * divisor < dividend then some (result + 1) else some result
  | RoundingMode.Down => some result

/-- The recognized kind strings of src/file/attributes.rs (pub mod kind). -/
def kindScanLine : List Nat := strBytes "scanlineimage"

/-- The tiledimage kind string. -/
def kindTile : List Nat := strBytes "tiledimage"

/-- The deepscanline kind string. -/
def kindDeepScanLine : List Nat := strBytes "deepscanline"

/-- The deeptile kind string. -/
def kindDeepTile : List Nat := strBytes "deeptile"

/-- ParsedText from src/file/attributes.rs: texts parsed into an enum for
fast comparison of the four common kind strings. -/
inductive ParsedText where
  | ScanLine
  | Tile
  | DeepScanLine
  | DeepTile
  | Arbitrary (text : List Nat)
deriving DecidableEq

/-- ParsedText::parse: match the byte content against the four kind
constants, anything else is Arbitrary. -/
def ParsedText.parse (text : List Nat) : ParsedText :=
  if text = kindScanLine then ParsedText.ScanLine
  else if text = kindTile then ParsedText.Tile
  else if text = kindDeepScanLine then ParsedText.DeepScanLine
  else if text = kindDeepTile then ParsedText.DeepTile
  else ParsedText.Arbitrary text

/-- ParsedText::to_text_bytes: the bytes this parsed text stands for. -/
def ParsedText.to_text_bytes : ParsedText → List Nat
  | ParsedText.ScanLine => kindScanLine
  | ParsedText.Tile => kindTile
  | ParsedText.DeepScanLine => kindDeepScanLine
  | ParsedText.DeepTile => kindDeepTile
  | ParsedText.Arbitrary text => text

/-- RipMaps from src/image/mod.rs: a flattened list of levels together
with the number of levels generated along the x-axis and the y-axis. -/
structure RipMaps (α : Type) where
  map_data : List α
  level_count : Nat × Nat
deriving DecidableEq

/-- RipMaps::get_level_index: flatten the 2D level index; the source
computes level_count.0 * level.y() + level.x(). -/
def RipMaps.get_level_index {α : Type} (r : RipMaps α) (level : Nat × Nat) : Nat :=
  r.level_count.fst * level.snd + level.fst

/-- RipMaps::get_by_level: look the flattened index up in map_data. -/
def RipMaps.get_by_level {α : Type} (r : RipMaps α) (level : Nat × Nat) : Option α :=
  r.map_data.get? (r.get_level_index level)

/-- Levels from src/image/mod.rs: one or multiple resolution levels. -/
inductive Levels (α : Type) where
  | Singular (s : α)
  | Mip (maps : List α)
  | Rip (r : RipMaps α)
deriving DecidableEq

/-- Levels::get_level under release semantics (the debug_assert calls on
the Singular and Mip arms are compiled out): Singular always yields its
data, Mip indexes by level.x, Rip by the flattened rip index; a failed
list lookup becomes the invalid-level-index error of the source. -/
def Levels.get_level {α : Type} : Levels α → Nat × Nat → Except String α
  | Levels.Singular block, _level => Except.ok block
  | Levels.Mip block, level =>
    match block.get? level.fst with
    | some v => Except.ok v
    | none => Except.error "block mip level index"
  | Levels.Rip block, level =>
    match block.get_by_level level with
    | some v => Except.ok v
    | none => Except.error "block rip level index"

/-- C7: for u32 values a and b with b > 0, RoundingMode::Up.divide(a,b)
is the ceiling of a/b (written (a + b - 1) / b over Nat) and
RoundingMode::Down.divide(a,b) is the floor a / b. -/
theorem rounding_divide_up_down (a b : Nat) (ha : a < 2 ^ 32) (hb32 : b < 2 ^ 32)
    (hb : 0 < b) :
    RoundingMode.divide RoundingMode.Up a b = some ((a + b - 1) / b)
    ∧ RoundingMode.divide RoundingMode.Down a b = some (a / b) := by
  have hbne : b ≠ 0 := Nat.pos_iff_ne_zero.mp hb
  constructor
  · show RoundingMode.divide RoundingMode.Up a b = some ((a + b - 1) / b)
    unfold RoundingMode.divide
    simp only [hbne, if_false]
    have hmod := Nat.div_add_mod a b
    rcases Nat.eq_zero_or_pos (a % b) with hm | hm
    · have hdvd : b * (a / b) = a := by omega
      have hlt : ¬ (a / b * b < a) := by
        rw [Nat.mul_comm]
        omega
      simp only [hlt, if_false]
      have : a + b - 1 = b * (a / b) + (b - 1) := by omega
      rw [this, Nat.mul_add_div hb, Nat.div_eq_of_lt (show b - 1 < b by omega),
        Nat.add_zero]
    · have hlt : a / b * b < a := by
        rw [Nat.mul_comm]
        omega
      simp only [hlt, if_true]
      have hmb : a % b < b := Nat.mod_lt a hb
      have : a + b - 1 = b * (a / b) + (a % b - 1 + b) := by omega
      rw [this, Nat.mul_add_div hb, Nat.add_div_right _ hb,
        Nat.div_eq_of_lt (show a % b - 1 < b by omega)]
  · show RoundingMode.divide RoundingMode.Down a b = some (a / b)
    unfold RoundingMode.divide
    simp [hbne]

/-- Witness for C7 at a = 7, b = 3: up-division gives 3, down-division gives 2. -/
theorem rounding_divide_up_down_witness :
    RoundingMode.divide RoundingMode.Up 7 3 = some 3
    ∧ RoundingMode.divide RoundingMode.Down 7 3 = some 2 :=
  rounding_divide_up_down 7 3 (by decide) (by decide) (by decide)

/-- C10: converting a parsed text back gives exactly the original bytes,
both for the four recognized kind strings and for arbitrary text. -/
theorem parse_to_text_bytes_roundtrip (t : List Nat) :
    (ParsedText.parse t).to_text_bytes = t := by
  unfold ParsedText.parse
  split_ifs with h1 h2 h3 h4
  · exact h1.symm
  · exact h2.symm
  · exact h3.symm
  · exact h4.symm
  · rfl

/-- C3 counterexample: with level_count = (wlev, hlev) = (2, 3) the flat
index of level (x, y) = (0, 1) is 2·1 + 0 = 2, not hlev·y + x = 3. -/
theorem rip_index_counterexample :
    (RipMaps.mk ([] : List Nat) (2, 3)).get_level_index (0, 1) ≠ 3 * 1 + 0 := by
  decide

/-- C3 amended: the flattened index is wlev·y + x, the x-axis level count
(level_count.0) times y plus x, and get_by_level looks that index up. -/
theorem rip_index_eq (d : List Nat) (wlev hlev x y : Nat) :
    (RipMaps.mk d (wlev, hlev)).get_level_index (x, y) = wlev * y + x
    ∧ (RipMaps.mk d (wlev, hlev)).get_by_level (x, y) = d.get? (wlev * y + x) :=
  ⟨rfl, rfl⟩

/-- C9 counterexample: a Rip value with level_count (2, 2) accessed at
level (2, 0), which lies outside level_count (2 < 2 fails), returns the
stored level at flat index 2 instead of an invalid-level-index error. -/
theorem get_level_counterexample :
    ¬ ((2 : Nat) < 2)
    ∧ (Levels.Rip (RipMaps.mk [10, 11, 12, 13] (2, 2))).get_level (2, 0)
      = Except.ok 12 :=
  ⟨by decide, rfl⟩

/-- C9 amended: Singular ignores the requested level and returns its data;
Mip errors exactly when level.x is outside the stored list (level.y is
ignored in release builds); Rip errors exactly when the flattened index
wlev·y + x is outside map_data. -/
theorem get_level_eq (maps : List Nat) (r : RipMaps Nat) (s x y : Nat) :
    (Levels.Singular s).get_level (x, y) = Except.ok s
    ∧ ((Levels.Mip maps).get_level (x, y) = Except.error "block mip level index"
        ↔ maps.length ≤ x)
    ∧ ((Levels.Rip r).get_level (x, y) = Except.error "block rip level index"
        ↔ r.map_data.length ≤ r.level_count.fst * y + x) := by
  refine ⟨rfl, ?_, ?_⟩
  · simp only [Levels.get_level]
    cases h : maps.get? x with
    | none =>
      simp only [h]
      exact ⟨fun _ => List.get?_eq_none.mp h, fun _ => trivial⟩
    | some v =>
      simp only [h]
      constructor
      · intro hcontra
        exact absurd hcontra (by simp)
      · intro hlen
        rw [List.get?_eq_none.mpr hlen] at h
        cases h
  · simp only [Levels.get_level, RipMaps.get_by_level, RipMaps.get_level_index]
    cases h : r.map_data.get? (r.level_count.fst * y + x) with
    | none =>
      simp only [h]
      exact ⟨fun _ => List.get?_eq_none.mp h, fun _ => trivial⟩
    | some v =>
      simp only [h]
      constructor
      · intro hcontra
        exact absurd hcontra (by simp)
      · intro hlen
        rw [List.get?_eq_none.mpr hlen] at h
        cases h

/-- Write errors, mirroring the crate's Invalid validation errors. -/
inductive WriteErr where
  | invalid (what : String)
deriving DecidableEq

/-- Modelled from the spec: reading one i8 (sign-extended byte). -/
def readI8 (bs : List Nat) : Except ReadErr (Int × List Nat) := do
  let (b, bs) ← readU8 bs
  Except.ok (if b < 128 then (b : Int) else (b : Int) - 256, bs)

/-- Modelled from the spec: an i8 is written as its two's complement byte. -/
def i8ToByte (i : Int) : Nat := (i % 256).toNat

/-- Modelled from the spec: reading a fixed-length array of i8 values. -/
def readI8Array : Nat → List Nat → Except ReadErr (List Int × List Nat)
  | 0, bs => Except.ok ([], bs)
  | n + 1, bs => do
    let (v, bs) ← readI8 bs
    let (vs, bs) ← readI8Array n bs
    Except.ok (v :: vs, bs)

/-- Modelled from the spec: reading a fixed-length array of f32 bit patterns. -/
def readF32Array : Nat → List Nat → Except ReadErr (List Nat × List Nat)
  | 0, bs => Except.ok ([], bs)
  | n + 1, bs => do
    let (v, bs) ← readU32 bs
    let (vs, bs) ← readF32Array n bs
    Except.ok (v :: vs, bs)

/-- Modelled from the spec: an f64 bit pattern written as eight little-endian bytes. -/
def f64ToBytes (n : Nat) : List Nat := u32ToBytes (n % 2 ^ 32) ++ u32ToBytes (n / 2 ^ 32)

/-- Modelled from the spec: reading an f64 bit pattern from eight bytes. -/
def readF64 (bs : List Nat) : Except ReadErr (Nat × List Nat) := do
  let (lo, bs) ← readU32 bs
  let (hi, bs) ← readU32 bs
  Except.ok (lo + 2 ^ 32 * hi, bs)

/-- Modelled from the spec: Rust's cast of an i32 to usize, which wraps
negative values into huge numbers on a 64-bit host. -/
def intToUsize (i : Int) : Nat := (i % 2 ^ 64).toNat

/-- Text::validate_bytes from src/file/attributes.rs: a text must be
nonempty and, depending on the long-names flag, below 32 or 256 bytes.
The none long-names case accepts any nonempty length (the unwrap in the
source's error path is unreachable then). -/
def Text.validate_bytes (text : List Nat) (long_names : Option Bool) : Except WriteErr Unit :=
  let ok : Bool := !text.isEmpty && (match long_names with
    | some false => decide (text.length < 32)
    | some true => decide (text.length < 256)
    | none => true)
  if ok then Except.ok ()
  else if text.isEmpty then Except.error (WriteErr.invalid "text min 1")
  else match long_names with
    | some true => Except.error (WriteErr.invalid "text max 255")
    | _ => Except.error (WriteErr.invalid "text max 31")

/-- Text::write_unsized_bytes: validate, then emit the raw bytes. -/
def Text.write_unsized_bytes (bytes : List Nat) (long_names : Option Bool) :
    Except WriteErr (List Nat) := do
  Text.validate_bytes bytes long_names
  Except.ok bytes

/-- Text::write_null_terminated_bytes: the raw bytes, then the 0 terminator. -/
def Text.write_null_terminated_bytes (bytes : List Nat) (long_names : Option Bool) :
    Except WriteErr (List Nat) := do
  let b ← Text.write_unsized_bytes bytes long_names
  Except.ok (b ++ [0])

/-- Text::write_i32_sized: an i32 length field, then the raw bytes. -/
def Text.write_i32_sized (bytes : List Nat) (long_names : Option Bool) :
    Except WriteErr (List Nat) := do
  let b ← Text.write_unsized_bytes bytes long_names
  Except.ok (i32ToBytes (bytes.length : Int) ++ b)

/-- Text::read_null_terminated: collect bytes until the 0 terminator. -/
def Text.read_null_terminated : List Nat → Except ReadErr (List Nat × List Nat)
  | [] => Except.error ReadErr.ioEof
  | b :: rest =>
    if b = 0 then Except.ok ([], rest)
    else do
      let (t, bs) ← Text.read_null_terminated rest
      Except.ok (b :: t, bs)

/-- Text::read_sized: read exactly size bytes through the bounded vector
read with its soft maximum of 1024. -/
def Text.read_sized (bs : List Nat) (size : Nat) : Except ReadErr (List Nat × List Nat) :=
  readU8Vec bs size 1024

/-- Text::read_i32_sized: an i32 length field cast to usize, then that many bytes. -/
def Text.read_i32_sized (bs : List Nat) : Except ReadErr (List Nat × List Nat) := do
  let (size, bs) ← readI32 bs
  Text.read_sized bs (intToUsize size)

/-- Loop body of Text::read_vec_of_i32_sized: read i32-sized texts while
fewer than attribute_value_byte_size bytes were processed, counting 4
bytes for each length field plus the text bytes. In release builds the
closing debug_assert that processed equals the attribute size does
nothing, so overshooting the size still returns Ok. The fuel only makes
the recursion structural; every iteration advances processed by at
least 4, so with fuel = size + 1 the fuel never runs out first. -/
def Text.read_vec_go : Nat → List Nat → Nat → Nat → Except ReadErr (List (List Nat) × List Nat)
  | 0, _, _, _ => Except.error ReadErr.ioEof
  | fuel + 1, bs, size, processed =>
    if processed < size then
      match Text.read_i32_sized bs with
      | Except.error e => Except.error e
      | Except.ok (t, bs') =>
        match Text.read_vec_go fuel bs' size (processed + 4 + t.length) with
        | Except.error e => Except.error e
        | Except.ok (ts, rest) => Except.ok (t :: ts, rest)
    else Except.ok ([], bs)

/-- Text::read_vec_of_i32_sized from src/file/attributes.rs. -/
def Text.read_vec_of_i32_sized (bs : List Nat) (attribute_value_byte_size : Nat) :
    Except ReadErr (List (List Nat) × List Nat) :=
  Text.read_vec_go (attribute_value_byte_size + 1) bs attribute_value_byte_size 0

/-- Text::write_vec_of_i32_sized_texts: each text i32-size-prefixed, no
length validation (long_names is None). -/
def Text.write_vec_of_i32_sized_texts : List (List Nat) → Except WriteErr (List Nat)
  | [] => Except.ok []
  | t :: ts => do
    let b ← Text.write_i32_sized t none
    let rest ← Text.write_vec_of_i32_sized_texts ts
    Except.ok (b ++ rest)

/-- PixelType from src/file/attributes.rs. -/
inductive PixelType where
  | U32
  | F16
  | F32
deriving DecidableEq

/-- PixelType::write: the variant as an i32 (0, 1 or 2). -/
def PixelType.write : PixelType → List Nat
  | PixelType.U32 => i32ToBytes 0
  | PixelType.F16 => i32ToBytes 1
  | PixelType.F32 => i32ToBytes 2

/-- PixelType::read: an i32 that must be 0, 1 or 2. -/
def PixelType.read (bs : List Nat) : Except ReadErr (PixelType × List Nat) := do
  let (n, bs) ← readI32 bs
  match n with
  | 0 => Except.ok (PixelType.U32, bs)
  | 1 => Except.ok (PixelType.F16, bs)
  | 2 => Except.ok (PixelType.F32, bs)
  | _ => Except.error (ReadErr.invalidContent "pixelType")

/-- Compression from src/file/compress.rs as re-exported by attributes.rs. -/
inductive Compression where
  | None
  | RLE
  | ZIPSingle
  | ZIP
  | PIZ
  | PXR24
  | B44
  | B44A
deriving DecidableEq

/-- Compression::write: the variant as a u8 (0 to 7). -/
def Compression.write : Compression → List Nat
  | Compression.None => [0]
  | Compression.RLE => [1]
  | Compression.ZIPSingle => [2]
  | Compression.ZIP => [3]
  | Compression.PIZ => [4]
  | Compression.PXR24 => [5]
  | Compression.B44 => [6]
  | Compression.B44A => [7]

/-- Compression::read: a u8 that must lie in 0 to 7. -/
def Compression.read (bs : List Nat) : Except ReadErr (Compression × List Nat) := do
  let (n, bs) ← readU8 bs
  match n with
  | 0 => Except.ok (Compression.None, bs)
  | 1 => Except.ok (Compression.RLE, bs)
  | 2 => Except.ok (Compression.ZIPSingle, bs)
  | 3 => Except.ok (Compression.ZIP, bs)
  | 4 => Except.ok (Compression.PIZ, bs)
  | 5 => Except.ok (Compression.PXR24, bs)
  | 6 => Except.ok (Compression.B44, bs)
  | 7 => Except.ok (Compression.B44A, bs)
  | _ => Except.error (ReadErr.invalidContent "compression")

/-- EnvironmentMap from src/file/attributes.rs. -/
inductive EnvironmentMap where
  | LatitudeLongitude
  | Cube
deriving DecidableEq

/-- EnvironmentMap::write: the variant as a u8 (0 or 1). -/
def EnvironmentMap.write : EnvironmentMap → List Nat
  | EnvironmentMap.LatitudeLongitude => [0]
  | EnvironmentMap.Cube => [1]

/-- EnvironmentMap::read: a u8 that must be 0 or 1. -/
def EnvironmentMap.read (bs : List Nat) : Except ReadErr (EnvironmentMap × List Nat) := do
  let (n, bs) ← readU8 bs
  match n with
  | 0 => Except.ok (EnvironmentMap.LatitudeLongitude, bs)
  | 1 => Except.ok (EnvironmentMap.Cube, bs)
  | _ => Except.error (ReadErr.invalidContent "envmap")

/-- LineOrder from src/file/attributes.rs. -/
inductive LineOrder where
  | IncreasingY
  | DecreasingY
  | RandomY
deriving DecidableEq

/-- LineOrder::write: the variant as a u8 (0, 1 or 2). -/
def LineOrder.write : LineOrder → List Nat
  | LineOrder.IncreasingY => [0]
  | LineOrder.DecreasingY => [1]
  | LineOrder.RandomY => [2]

/-- LineOrder::read: a u8 that must be 0, 1 or 2. -/
def LineOrder.read (bs : List Nat) : Except ReadErr (LineOrder × List Nat) := do
  let (n, bs) ← readU8 bs
  match n with
  | 0 => Except.ok (LineOrder.IncreasingY, bs)
  | 1 => Except.ok (LineOrder.DecreasingY, bs)
  | 2 => Except.ok (LineOrder.RandomY, bs)
  | _ => Except.error (ReadErr.invalidContent "lineOrder")

/-- I32Box2 from src/file/attributes.rs. -/
structure I32Box2 where
  x_min : Int
  y_min : Int
  x_max : Int
  y_max : Int
deriving DecidableEq

/-- I32Box2::write: the four corners as i32 values. -/
def I32Box2.write (b : I32Box2) : List Nat :=
  i32ToBytes b.x_min ++ i32ToBytes b.y_min ++ i32ToBytes b.x_max ++ i32ToBytes b.y_max

/-- I32Box2::read: the four corners as i32 values. -/
def I32Box2.read (bs : List Nat) : Except ReadErr (I32Box2 × List Nat) := do
  let (x_min, bs) ← readI32 bs
  let (y_min, bs) ← readI32 bs
  let (x_max, bs) ← readI32 bs
  let (y_max, bs) ← readI32 bs
  Except.ok (⟨x_min, y_min, x_max, y_max⟩, bs)

/-- F32Box2 from src/file/attributes.rs; f32 values carried as bit patterns. -/
structure F32Box2 where
  x_min : Nat
  y_min : Nat
  x_max : Nat
  y_max : Nat
deriving DecidableEq

/-- F32Box2::write: the four corners as f32 values. -/
def F32Box2.write (b : F32Box2) : List Nat :=
  u32ToBytes b.x_min ++ u32ToBytes b.y_min ++ u32ToBytes b.x_max ++ u32ToBytes b.y_max

/-- F32Box2::read: the four corners as f32 values. -/
def F32Box2.read (bs : List Nat) : Except ReadErr (F32Box2 × List Nat) := do
  let (x_min, bs) ← readU32 bs
  let (y_min, bs) ← readU32 bs
  let (x_max, bs) ← readU32 bs
  let (y_max, bs) ← readU32 bs
  Except.ok (⟨x_min, y_min, x_max, y_max⟩, bs)

/-- Chromaticities from src/file/attributes.rs; f32 values as bit patterns. -/
structure Chromaticities where
  red_x : Nat
  red_y : Nat
  green_x : Nat
  green_y : Nat
  blue_x : Nat
  blue_y : Nat
  white_x : Nat
  white_y : Nat
deriving DecidableEq

/-- Chromaticities::write: the eight coordinates as f32 values. -/
def Chromaticities.write (c : Chromaticities) : List Nat :=
  u32ToBytes c.red_x ++ u32ToBytes c.red_y ++ u32ToBytes c.green_x ++ u32ToBytes c.green_y
    ++ u32ToBytes c.blue_x ++ u32ToBytes c.blue_y ++ u32ToBytes c.white_x ++ u32ToBytes c.white_y

/-- Chromaticities::read: the eight coordinates as f32 values. -/
def Chromaticities.read (bs : List Nat) : Except ReadErr (Chromaticities × List Nat) := do
  let (red_x, bs) ← readU32 bs
  let (red_y, bs) ← readU32 bs
  let (green_x, bs) ← readU32 bs
  let (green_y, bs) ← readU32 bs
  let (blue_x, bs) ← readU32 bs
  let (blue_y, bs) ← readU32 bs
  let (white_x, bs) ← readU32 bs
  let (white_y, bs) ← readU32 bs
  Except.ok (⟨red_x, red_y, green_x, green_y, blue_x, blue_y, white_x, white_y⟩, bs)

/-- KeyCode from src/file/attributes.rs: seven i32 fields identifying a
motion picture film frame. -/
structure KeyCode where
  film_manufacturer_code : Int
  film_type : Int
  film_roll_prefix : Int
  count : Int
  perforation_offset : Int
  perforations_per_frame : Int
  perforations_per_count : Int
deriving DecidableEq

/-- KeyCode::write as in the source: it serializes only six of the seven
fields, skipping perforations_per_frame between perforation_offset and
perforations_per_count. -/
def KeyCode.write (kc : KeyCode) : List Nat :=
  match kc with
  | ⟨film_manufacturer_code, film_type, film_roll_prefix, count, perforation_offset,
      _perforations_per_frame, perforations_per_count⟩ =>
    i32ToBytes film_manufacturer_code ++ i32ToBytes film_type
      ++ i32ToBytes film_roll_prefix ++ i32ToBytes count
      ++ i32ToBytes perforation_offset ++ i32ToBytes perforations_per_count

/-- KeyCode::read: seven i32 values in field order. -/
def KeyCode.read (bs : List Nat) : Except ReadErr (KeyCode × List Nat) := do
  let (film_manufacturer_code, bs) ← readI32 bs
  let (film_type, bs) ← readI32 bs
  let (film_roll_pre, bs) ← readI32 bs
  let (count, bs) ← readI32 bs
  let (perforation_offset, bs) ← readI32 bs
  let (per_frame, bs) ← readI32 bs
  let (per_count, bs) ← readI32 bs
  Except.ok (⟨film_manufacturer_code, film_type, film_roll_pre, count,
    perforation_offset, per_frame, per_count⟩, bs)

/-- Preview from src/file/attributes.rs: width, height and raw RGBA bytes. -/
structure Preview where
  width : Nat
  height : Nat
  pixel_data : List Nat
deriving DecidableEq

/-- Preview::write: width, height, then the raw pixel bytes. -/
def Preview.write (p : Preview) : List Nat :=
  u32ToBytes p.width ++ u32ToBytes p.height ++ p.pixel_data

/-- Preview::read: reads width and height, then allocates and fills
width·height·4 bytes. The multiplication is u32 arithmetic (wrapping in
release builds); the declared attribute size is not consulted. -/
def Preview.read (bs : List Nat) : Except ReadErr (Preview × List Nat) := do
  let (width, bs) ← readU32 bs
  let (height, bs) ← readU32 bs
  let (pixel_data, bs) ← readBytes (width * height * 4 % 2 ^ 32) bs
  Except.ok (⟨width, height, pixel_data⟩, bs)

/-- LevelMode from src/file/attributes.rs. -/
inductive LevelMode where
  | One
  | MipMap
  | RipMap
deriving DecidableEq

/-- TileDescription from src/file/attributes.rs. -/
structure TileDescription where
  x_size : Nat
  y_size : Nat
  level_mode : LevelMode
  rounding_mode : RoundingMode
deriving DecidableEq

/-- TileDescription::write: x_size and y_size as u32, then one byte
packing the modes as level_mode + rounding_mode · 16. -/
def TileDescription.write (t : TileDescription) : List Nat :=
  let level_mode : Nat := match t.level_mode with
    | LevelMode.One => 0
    | LevelMode.MipMap => 1
    | LevelMode.RipMap => 2
  let rounding_mode : Nat := match t.rounding_mode with
    | RoundingMode.Down => 0
    | RoundingMode.Up => 1
  u32ToBytes t.x_size ++ u32ToBytes t.y_size ++ [level_mode + rounding_mode * 16]

/-- TileDescription::read: two u32 sizes and the packed mode byte; the
low nibble is the level mode, the high nibble the rounding mode, each
checked against its range. -/
def TileDescription.read (bs : List Nat) : Except ReadErr (TileDescription × List Nat) := do
  let (x_size, bs) ← readU32 bs
  let (y_size, bs) ← readU32 bs
  let (mode, bs) ← readU8 bs
  let level_mode ← match mode % 16 with
    | 0 => Except.ok LevelMode.One
    | 1 => Except.ok LevelMode.MipMap
    | 2 => Except.ok LevelMode.RipMap
    | _ => Except.error (ReadErr.invalidContent "level mode")
  let rounding_mode ← match mode / 16 with
    | 0 => Except.ok RoundingMode.Down
    | 1 => Except.ok RoundingMode.Up
    | _ => Except.error (ReadErr.invalidContent "rounding mode")
  Except.ok (⟨x_size, y_size, level_mode, rounding_mode⟩, bs)

/-- Channel from src/file/attributes.rs. -/
structure Channel where
  name : List Nat
  pixel_type : PixelType
  is_linear : Bool
  reserved : List Int
  x_sampling : Int
  y_sampling : Int
deriving DecidableEq

/-- Channel::write: null-terminated name, pixel type, linearity byte,
three reserved i8 values, and the two sampling rates. -/
def Channel.write (c : Channel) (long_names : Bool) : Except WriteErr (List Nat) := do
  let nameBytes ← Text.write_null_terminated_bytes c.name (some long_names)
  Except.ok (nameBytes ++ c.pixel_type.write
    ++ [if c.is_linear then 1 else 0]
    ++ c.reserved.map i8ToByte
    ++ i32ToBytes c.x_sampling ++ i32ToBytes c.y_sampling)

/-- Channel::read: the same fields in order; the linearity byte must be 0 or 1. -/
def Channel.read (bs : List Nat) : Except ReadErr (Channel × List Nat) := do
  let (name, bs) ← Text.read_null_terminated bs
  let (pixel_type, bs) ← PixelType.read bs
  let (linearByte, bs) ← readU8 bs
  let is_linear ← match linearByte with
    | 1 => Except.ok true
    | 0 => Except.ok false
    | _ => Except.error (ReadErr.invalidContent "pLinear")
  let (reserved, bs) ← readI8Array 3 bs
  let (x_sampling, bs) ← readI32 bs
  let (y_sampling, bs) ← readI32 bs
  Except.ok (⟨name, pixel_type, is_linear, reserved, x_sampling, y_sampling⟩, bs)

/-- Channel::write_list: each channel in order, then the 0 sequence terminator. -/
def Channel.write_list (channels : List Channel) (long_names : Bool) :
    Except WriteErr (List Nat) :=
  match channels with
  | [] => Except.ok [0]
  | c :: rest => do
    let cb ← c.write long_names
    let rb ← Channel.write_list rest long_names
    Except.ok (cb ++ rb)

/-- Loop body of Channel::read_list: channels until the 0 terminator,
which the sequence-end peek consumes. The fuel only bounds the
recursion; every loop iteration consumes at least the one byte the fuel
counts, so with fuel = input length the fuel never runs out first. -/
def Channel.read_list_go : Nat → List Nat → Except ReadErr (List Channel × List Nat)
  | 0, _ => Except.error ReadErr.ioEof
  | _ + 1, [] => Except.error ReadErr.ioEof
  | _ + 1, 0 :: rest => Except.ok ([], rest)
  | fuel + 1, b :: rest => do
    let (c, bs) ← Channel.read (b :: rest)
    let (cs, bs) ← Channel.read_list_go fuel bs
    Except.ok (c :: cs, bs)

/-- Channel::read_list from src/file/attributes.rs. -/
def Channel.read_list (bs : List Nat) : Except ReadErr (List Channel × List Nat) :=
  Channel.read_list_go bs.length bs

/-- AttributeValue from src/file/attributes.rs: the closed set of typed
attribute payloads. f32 and f64 payloads are carried as bit patterns. -/
inductive AttributeValue where
  | I32Box2 (v : I32Box2)
  | F32Box2 (v : F32Box2)
  | ChannelList (channels : List Channel)
  | Chromaticities (v : Chromaticities)
  | Compression (v : Compression)
  | F64 (bits : Nat)
  | EnvironmentMap (v : EnvironmentMap)
  | F32 (bits : Nat)
  | I32 (v : Int)
  | KeyCode (v : KeyCode)
  | LineOrder (v : LineOrder)
  | F32Matrix3x3 (vs : List Nat)
  | F32Matrix4x4 (vs : List Nat)
  | Preview (v : Preview)
  | Rational (a : Int) (b : Nat)
  | Text (t : ParsedText)
  | TextVector (ts : List (List Nat))
  | TileDescription (v : TileDescription)
  | TimeCode (a b : Nat)
  | I32Vec2 (x y : Int)
  | F32Vec2 (x y : Nat)
  | I32Vec3 (x y z : Int)
  | F32Vec3 (x y z : Nat)
deriving DecidableEq

/-- AttributeValue::byte_size from src/file/attributes.rs: the body is a
single unimplemented!() macro, which panics unconditionally; modelled as
none for every value. -/
def AttributeValue.byte_size (_ : AttributeValue) : Option Nat := none

/-- AttributeValue::kind_name: the wire name of each variant, exactly as
the source's byte literals (including vec2i, vec2f, vec3i, vec3f for the
vector variants). -/
def AttributeValue.kind_name : AttributeValue → List Nat
  | AttributeValue.I32Box2 _ => strBytes "box2i"
  | AttributeValue.F32Box2 _ => strBytes "box2f"
  | AttributeValue.I32 _ => strBytes "int"
  | AttributeValue.F32 _ => strBytes "float"
  | AttributeValue.F64 _ => strBytes "double"
  | AttributeValue.Rational _ _ => strBytes "rational"
  | AttributeValue.TimeCode _ _ => strBytes "timecode"
  | AttributeValue.I32Vec2 _ _ => strBytes "vec2i"
  | AttributeValue.F32Vec2 _ _ => strBytes "vec2f"
  | AttributeValue.I32Vec3 _ _ _ => strBytes "vec3i"
  | AttributeValue.F32Vec3 _ _ _ => strBytes "vec3f"
  | AttributeValue.ChannelList _ => strBytes "chlist"
  | AttributeValue.Chromaticities _ => strBytes "chromaticities"
  | AttributeValue.Compression _ => strBytes "compression"
  | AttributeValue.EnvironmentMap _ => strBytes "envmap"
  | AttributeValue.KeyCode _ => strBytes "keycode"
  | AttributeValue.LineOrder _ => strBytes "lineOrder"
  | AttributeValue.F32Matrix3x3 _ => strBytes "m33f"
  | AttributeValue.F32Matrix4x4 _ => strBytes "m44f"
  | AttributeValue.Preview _ => strBytes "preview"
  | AttributeValue.Text _ => strBytes "string"
  | AttributeValue.TextVector _ => strBytes "stringvector"
  | AttributeValue.TileDescription _ => strBytes "tiledesc"

/-- AttributeValue::write: serialize the payload; only channel lists and
text vectors can fail (name validation). -/
def AttributeValue.write (long_names : Bool) : AttributeValue → Except WriteErr (List Nat)
  | AttributeValue.I32Box2 v => Except.ok v.write
  | AttributeValue.F32Box2 v => Except.ok v.write
  | AttributeValue.I32 v => Except.ok (i32ToBytes v)
  | AttributeValue.F32 v => Except.ok (u32ToBytes v)
  | AttributeValue.F64 v => Except.ok (f64ToBytes v)
  | AttributeValue.Rational a b => Except.ok (i32ToBytes a ++ u32ToBytes b)
  | AttributeValue.TimeCode a b => Except.ok (u32ToBytes a ++ u32ToBytes b)
  | AttributeValue.I32Vec2 x y => Except.ok (i32ToBytes x ++ i32ToBytes y)
  | AttributeValue.F32Vec2 x y => Except.ok (u32ToBytes x ++ u32ToBytes y)
  | AttributeValue.I32Vec3 x y z => Except.ok (i32ToBytes x ++ i32ToBytes y ++ i32ToBytes z)
  | AttributeValue.F32Vec3 x y z => Except.ok (u32ToBytes x ++ u32ToBytes y ++ u32ToBytes z)
  | AttributeValue.ChannelList channels => Channel.write_list channels long_names
  | AttributeValue.Chromaticities v => Except.ok v.write
  | AttributeValue.Compression v => Except.ok v.write
  | AttributeValue.EnvironmentMap v => Except.ok v.write
  | AttributeValue.KeyCode v => Except.ok v.write
  | AttributeValue.LineOrder v => Except.ok v.write
  | AttributeValue.F32Matrix3x3 vs => Except.ok (vs.flatMap u32ToBytes)
  | AttributeValue.F32Matrix4x4 vs => Except.ok (vs.flatMap u32ToBytes)
  | AttributeValue.Preview v => Except.ok v.write
  | AttributeValue.Text t => Except.ok t.to_text_bytes
  | AttributeValue.TextVector ts => Text.write_vec_of_i32_sized_texts ts
  | AttributeValue.TileDescription v => Except.ok v.write

/-- AttributeValue::read: dispatch on the kind string, exactly the
source's match arms (note v2i, v2f, v3i, v3f for the vector kinds);
unrecognized kinds are the recoverable UnknownAttributeType error
carrying the declared size. -/
def AttributeValue.read (kind : List Nat) (byte_size : Nat) (bs : List Nat) :
    Except ReadErr (AttributeValue × List Nat) :=
  if kind = strBytes "box2i" then do
    let (v, bs) ← I32Box2.read bs
    Except.ok (AttributeValue.I32Box2 v, bs)
  else if kind = strBytes "box2f" then do
    let (v, bs) ← F32Box2.read bs
    Except.ok (AttributeValue.F32Box2 v, bs)
  else if kind = strBytes "int" then do
    let (v, bs) ← readI32 bs
    Except.ok (AttributeValue.I32 v, bs)
  else if kind = strBytes "float" then do
    let (v, bs) ← readU32 bs
    Except.ok (AttributeValue.F32 v, bs)
  else if kind = strBytes "double" then do
    let (v, bs) ← readF64 bs
    Except.ok (AttributeValue.F64 v, bs)
  else if kind = strBytes "rational" then do
    let (a, bs) ← readI32 bs
    let (b, bs) ← readU32 bs
    Except.ok (AttributeValue.Rational a b, bs)
  else if kind = strBytes "timecode" then do
    let (a, bs) ← readU32 bs
    let (b, bs) ← readU32 bs
    Except.ok (AttributeValue.TimeCode a b, bs)
  else if kind = strBytes "v2i" then do
    let (x, bs) ← readI32 bs
    let (y, bs) ← readI32 bs
    Except.ok (AttributeValue.I32Vec2 x y, bs)
  else if kind = strBytes "v2f" then do
    let (x, bs) ← readU32 bs
    let (y, bs) ← readU32 bs
    Except.ok (AttributeValue.F32Vec2 x y, bs)
  else if kind = strBytes "v3i" then do
    let (x, bs) ← readI32 bs
    let (y, bs) ← readI32 bs
    let (z, bs) ← readI32 bs
    Except.ok (AttributeValue.I32Vec3 x y z, bs)
  else if kind = strBytes "v3f" then do
    let (x, bs) ← readU32 bs
    let (y, bs) ← readU32 bs
    let (z, bs) ← readU32 bs
    Except.ok (AttributeValue.F32Vec3 x y z, bs)
  else if kind = strBytes "chlist" then do
    let (channels, bs) ← Channel.read_list bs
    Except.ok (AttributeValue.ChannelList channels, bs)
  else if kind = strBytes "chromaticities" then do
    let (v, bs) ← Chromaticities.read bs
    Except.ok (AttributeValue.Chromaticities v, bs)
  else if kind = strBytes "compression" then do
    let (v, bs) ← Compression.read bs
    Except.ok (AttributeValue.Compression v, bs)
  else if kind = strBytes "envmap" then do
    let (v, bs) ← EnvironmentMap.read bs
    Except.ok (AttributeValue.EnvironmentMap v, bs)
  else if kind = strBytes "keycode" then do
    let (v, bs) ← KeyCode.read bs
    Except.ok (AttributeValue.KeyCode v, bs)
  else if kind = strBytes "lineOrder" then do
    let (v, bs) ← LineOrder.read bs
    Except.ok (AttributeValue.LineOrder v, bs)
  else if kind = strBytes "m33f" then do
    let (vs, bs) ← readF32Array 9 bs
    Except.ok (AttributeValue.F32Matrix3x3 vs, bs)
  else if kind = strBytes "m44f" then do
    let (vs, bs) ← readF32Array 16 bs
    Except.ok (AttributeValue.F32Matrix4x4 vs, bs)
  else if kind = strBytes "preview" then do
    let (v, bs) ← Preview.read bs
    Except.ok (AttributeValue.Preview v, bs)
  else if kind = strBytes "string" then do
    let (t, bs) ← Text.read_sized bs byte_size
    Except.ok (AttributeValue.Text (ParsedText.parse t), bs)
  else if kind = strBytes "stringvector" then do
    let (ts, bs) ← Text.read_vec_of_i32_sized bs byte_size
    Except.ok (AttributeValue.TextVector ts, bs)
  else if kind = strBytes "tiledesc" then do
    let (v, bs) ← TileDescription.read bs
    Except.ok (AttributeValue.TileDescription v, bs)
  else Except.error (ReadErr.unknownAttributeType byte_size)

/-- Attribute from src/file/attributes.rs: a named attribute value. -/
structure Attribute where
  name : List Nat
  value : AttributeValue

/-- Outcome of Attribute::write: a validation error, a Rust panic, or the
emitted bytes. -/
inductive WriteOutcome where
  | panic
  | error (e : WriteErr)
  | written (bytes : List Nat)
deriving DecidableEq

/-- Attribute::write: null-terminated name, null-terminated kind name,
the byte_size as an i32, then the value bytes. Because
AttributeValue::byte_size is unimplemented!(), control panics right
after the two names are written, so the size and value bytes are
unreachable. -/
def Attribute.write (a : Attribute) (long_names : Bool) : WriteOutcome :=
  match Text.write_null_terminated_bytes a.name (some long_names) with
  | Except.error e => WriteOutcome.error e
  | Except.ok nameBytes =>
    match Text.write_null_terminated_bytes a.value.kind_name (some long_names) with
    | Except.error e => WriteOutcome.error e
    | Except.ok kindBytes =>
      match a.value.byte_size with
      | none => WriteOutcome.panic
      | some size =>
        match a.value.write long_names with
        | Except.error e => WriteOutcome.error e
        | Except.ok valueBytes =>
          WriteOutcome.written (nameBytes ++ kindBytes ++ i32ToBytes (size : Int) ++ valueBytes)

/-- Samples from src/image/simple.rs: flat sample storage in one of the
three precisions; sample values carried as bit patterns. -/
inductive Samples where
  | F16 (v : List Nat)
  | F32 (v : List Nat)
  | U32 (v : List Nat)
deriving DecidableEq

/-- The stored sample list of a Samples value (Samples::len is its length). -/
def Samples.values : Samples → List Nat
  | Samples.F16 v => v
  | Samples.F32 v => v
  | Samples.U32 v => v

/-- Modelled from the spec: a Line of the line API carries a position,
a width, and the decoded sample values of one row of one channel. -/
structure Line where
  position : Nat × Nat
  width : Nat
  values : List Nat
deriving DecidableEq

/-- Outcome of Samples::insert_line: an invalid-coordinate error (the
source's Error::invalid message), a Rust slice panic, or the updated
storage. -/
inductive InsertOutcome where
  | panicked
  | error (msg : String)
  | ok (samples : Samples)
deriving DecidableEq

/-- Replacement of the slice positions start to start + vals.length. -/
def writeSlice (l : List Nat) (start : Nat) (vals : List Nat) : List Nat :=
  l.take start ++ vals ++ l.drop (start + vals.length)

/-- Samples::insert_line from src/image/simple.rs under release
semantics: reject lines whose x-range exceeds the width and lines with
y strictly greater than the height, then write the line's samples into
the flat slice at y·width + x. The y = height case passes the check and
the slice indexing panics whenever the end index exceeds the storage
length (the line's samples are its first width values). -/
def Samples.insert_line (s : Samples) (resolution : Nat × Nat) (line : Line) : InsertOutcome :=
  if line.position.fst + line.width > resolution.fst then
    InsertOutcome.error "data block x coordinate"
  else if line.position.snd > resolution.snd then
    InsertOutcome.error "data block y coordinate"
  else
    let start_index := line.position.snd * resolution.fst + line.position.fst
    let end_index := start_index + line.width
    if end_index > s.values.length then InsertOutcome.panicked
    else match s with
      | Samples.F16 v => InsertOutcome.ok (Samples.F16 (writeSlice v start_index (line.values.take line.width)))
      | Samples.F32 v => InsertOutcome.ok (Samples.F32 (writeSlice v start_index (line.values.take line.width)))
      | Samples.U32 v => InsertOutcome.ok (Samples.U32 (writeSlice v start_index (line.values.take line.width)))

/-- The byte values TileDescription::write assigns to each level mode. -/
def levelModeNumber : LevelMode → Nat
  | LevelMode.One => 0
  | LevelMode.MipMap => 1
  | LevelMode.RipMap => 2

/-- The byte values TileDescription::write assigns to each rounding mode. -/
def roundingModeNumber : RoundingMode → Nat
  | RoundingMode.Down => 0
  | RoundingMode.Up => 1

/-- Helper: decoding four little-endian bytes recovers any u32 below 2^32. -/
theorem readU32_u32ToBytes (n : Nat) (rest : List Nat) (h : n < 2 ^ 32) :
    readU32 (u32ToBytes n ++ rest) = Except.ok (n, rest) := by
  show Except.ok (n % 256 + 256 * (n / 256 % 256) + 65536 * (n / 65536 % 256)
    + 16777216 * (n / 16777216 % 256), rest) = Except.ok (n, rest)
  congr 1
  rw [Prod.mk.injEq]
  refine ⟨?_, rfl⟩
  omega

/-- Helper: binding a successful Except value applies the continuation. -/
theorem ebind_ok {ε α β : Type} (a : α) (f : α → Except ε β) :
    (Except.ok a : Except ε α) >>= f = f a := rfl

/-- C1: the write-then-read round trip fails. KeyCode::write emits only
six i32 fields (24 bytes, omitting perforations_per_frame), so
KeyCode::read, which consumes seven, runs off the end of the written
bytes; and for the vector variants the kind name that kind_name reports
(vec2i and its siblings) is not one of the kinds AttributeValue::read
dispatches on (v2i and its siblings), so reading under the reported
kind name yields UnknownAttributeType instead of the value. -/
theorem attribute_value_roundtrip_fails :
    (∀ kc : KeyCode, KeyCode.read (KeyCode.write kc) = Except.error ReadErr.ioEof)
    ∧ (∀ x y : Int,
        AttributeValue.read (AttributeValue.kind_name (AttributeValue.I32Vec2 x y)) 8
          (i32ToBytes x ++ i32ToBytes y)
        = Except.error (ReadErr.unknownAttributeType 8)) := by
  constructor
  · intro kc
    cases kc
    rfl
  · intro x y
    rfl

/-- C2: Attribute::write never produces bytes, because
AttributeValue::byte_size is unimplemented!() and panics; in particular
the attribute named "a" holding I32 0 panics instead of emitting
name, kind name, size and value. -/
theorem attribute_write_panics :
    (∀ (a : Attribute) (ln : Bool) (bytes : List Nat),
        Attribute.write a ln ≠ WriteOutcome.written bytes)
    ∧ Attribute.write ⟨strBytes "a", AttributeValue.I32 0⟩ true = WriteOutcome.panic := by
  constructor
  · intro a ln bytes
    unfold Attribute.write AttributeValue.byte_size
    cases Text.write_null_terminated_bytes a.name (some ln) with
    | error e => simp
    | ok nb =>
      cases Text.write_null_terminated_bytes a.value.kind_name (some ln) with
      | error e => simp
      | ok kb => simp
  · decide

/-- C4: inserting a line into a 4 by 3 sample block at position (0, 3),
the row equal to the block height, passes both coordinate checks (the y
check uses strictly-greater instead of at-least) and then panics on the
out-of-range slice 12..16 of the 12-sample storage, instead of
returning an invalid-coordinate error; one row below, at y = 4, the
check does return the error, and at y = 2 the line is written. -/
theorem insert_line_panics_at_block_height :
    Samples.insert_line (Samples.F32 (List.replicate 12 0)) (4, 3)
      (Line.mk (0, 3) 4 [1, 2, 3, 4]) = InsertOutcome.panicked
    ∧ Samples.insert_line (Samples.F32 (List.replicate 12 0)) (4, 3)
      (Line.mk (0, 4) 4 [1, 2, 3, 4]) = InsertOutcome.error "data block y coordinate"
    ∧ Samples.insert_line (Samples.F32 (List.replicate 12 0)) (4, 3)
      (Line.mk (0, 2) 4 [1, 2, 3, 4])
      = InsertOutcome.ok (Samples.F32 [0, 0, 0, 0, 0, 0, 0, 0, 1, 2, 3, 4]) := by
  refine ⟨by decide, by decide, by decide⟩

/-- C5: reading a preview attribute whose declared size is 8 but whose
payload announces width 2 and height 2 succeeds and allocates and reads
4·2·2 = 16 pixel-data bytes, which exceeds the declared size: the
declared size is never consulted by Preview::read. -/
theorem preview_read_ignores_declared_size :
    AttributeValue.read (strBytes "preview") 8
      (u32ToBytes 2 ++ u32ToBytes 2 ++ List.replicate 16 7)
      = Except.ok (AttributeValue.Preview (Preview.mk 2 2 (List.replicate 16 7)), [])
    ∧ (List.replicate (16 : Nat) (7 : Nat)).length = 16
    ∧ ¬ ((16 : Nat) ≤ 8) := by
  refine ⟨by rfl, by decide, by decide⟩

/-- C6: TileDescription serialization emits x_size and y_size as u32 and
packs the modes into one byte as level_mode + rounding_mode·16 (with
One = 0, MipMap = 1, RipMap = 2 and Down = 0, Up = 1), and reading the
written bytes recovers the original value. -/
theorem tiledesc_write_read_roundtrip (td : TileDescription)
    (hx : td.x_size < 2 ^ 32) (hy : td.y_size < 2 ^ 32) :
    TileDescription.read (TileDescription.write td) = Except.ok (td, [])
    ∧ TileDescription.write td = u32ToBytes td.x_size ++ u32ToBytes td.y_size
        ++ [levelModeNumber td.level_mode + roundingModeNumber td.rounding_mode * 16] := by
  obtain ⟨xs, ys, lm, rm⟩ := td
  simp only at hx hy
  constructor
  · cases lm <;> cases rm <;>
    · unfold TileDescription.write TileDescription.read
      simp only [List.append_assoc]
      rw [readU32_u32ToBytes _ _ hx, ebind_ok]
      rw [readU32_u32ToBytes _ _ hy, ebind_ok]
      rfl
  · cases lm <;> cases rm <;> rfl

/-- Witness for C6 at the tile description (5, 7, MipMap, Up). -/
theorem tiledesc_write_read_roundtrip_witness :
    TileDescription.read
        (TileDescription.write (TileDescription.mk 5 7 LevelMode.MipMap RoundingMode.Up))
      = Except.ok (TileDescription.mk 5 7 LevelMode.MipMap RoundingMode.Up, []) :=
  (tiledesc_write_read_roundtrip (TileDescription.mk 5 7 LevelMode.MipMap RoundingMode.Up)
    (by decide) (by decide)).1

/-- C8: a string-vector attribute of declared size 2 whose payload is one
i32-sized text of length 1 processes 4 + 1 = 5 bytes, contradicting the
declared size, yet the read returns Ok with the text instead of an
InvalidContent error: the source only debug_asserts that the processed
byte count matches the attribute size. -/
theorem stringvector_size_mismatch_succeeds :
    Text.read_vec_of_i32_sized (i32ToBytes 1 ++ [97]) 2 = Except.ok ([[97]], [])
    ∧ 4 + 1 ≠ 2 := by
  refine ⟨by rfl, by decide⟩

end Exrs
